import Mathlib

/-!
# go-rpc-gen: a verification development of `main.go`

`main.go` is a small orchestration program: it resolves two paths, installs two
protoc plugins with `go install`, walks a directory tree for `.proto` files and
runs `protoc` on them.  Everything it does is an effect on the operating system,
so the embedding below passes the operating system explicitly:

* `OS σ` is the record of the library calls the program makes
  (`filepath.Abs`, `os.MkdirAll`, `cmd.Run`, `os.Lstat`/`readDirNames` as seen by
  `filepath.Walk`, `os.Getenv`, `os.Environ`, `os.UserHomeDir`, `filepath.Join`,
  `os.PathListSeparator`) over an arbitrary state `σ` of the outside world;
* every function of `main.go` becomes a Lean function that threads the state and
  returns, next to its Go result, the list of `Event`s it performed, in order.

Theorems are stated for every `OS σ`, i.e. for every behaviour of the outside world.
-/

set_option linter.unusedVariables false

namespace GoRpcGen

/-! ## Go values -/

/-- Go `error` values.  `sys` is an error made by the operating system or the standard
library (`*fs.PathError`, `*exec.ExitError`, ...), `skipDir` and `skipAll` are the two
sentinels of `path/filepath`, and `wrapped pre inner` is `fmt.Errorf(pre + "%w", inner)`. -/
inductive GoError where
  | sys (msg : String)
  | skipDir
  | skipAll
  | wrapped (pre : String) (inner : GoError)
  deriving DecidableEq

/-- The method `Error()`: the message of an error; a wrapping error prints its own text
followed by the message of the error it wraps. -/
def GoError.Error : GoError → String
  | .sys msg => msg
  | .skipDir => "skip this directory"
  | .skipAll => "skip everything and stop the walk"
  | .wrapped pre inner => pre ++ inner.Error

/-- The method `Unwrap()` that `%w` gives an error: the wrapped error, if any. -/
def GoError.Unwrap : GoError → Option GoError
  | .wrapped _ inner => some inner
  | _ => none

/-- The file types `fs.FileMode` distinguishes (its type bits); `regular` is the absence
of every type bit. -/
inductive FileMode where
  | regular
  | dir
  | symlink
  | namedPipe
  | socket
  | device
  | charDevice
  | irregular
  deriving DecidableEq

/-- The types of the entries that are not directories. -/
inductive LeafMode where
  | regular
  | symlink
  | namedPipe
  | socket
  | device
  | charDevice
  | irregular
  deriving DecidableEq

/-- The `fs.FileMode` of an entry that is not a directory. -/
def LeafMode.toFileMode : LeafMode → FileMode
  | .regular => .regular
  | .symlink => .symlink
  | .namedPipe => .namedPipe
  | .socket => .socket
  | .device => .device
  | .charDevice => .charDevice
  | .irregular => .irregular

/-- The part of `os.FileInfo` the program reads: the base name and the mode. -/
structure FileInfo where
  Name : String
  Mode : FileMode
  deriving DecidableEq

/-- The method `IsDir()` of `os.FileInfo`. -/
def FileInfo.IsDir (info : FileInfo) : Bool :=
  match info.Mode with
  | .dir => true
  | _ => false

/-- The method `Mode().IsRegular()` of `os.FileInfo`. -/
def FileInfo.IsRegular (info : FileInfo) : Bool :=
  match info.Mode with
  | .regular => true
  | _ => false

/-- Go `strings.HasSuffix`: `s` ends with `suffix`. -/
def HasSuffix (s suffix : String) : Bool :=
  suffix.data.isSuffixOf s.data

/-! ## The file system as `filepath.Walk` sees it -/

/-- A directory tree as `filepath.Walk` observes it through `os.Lstat` and `readDirNames`.
`leaf` is an entry that is not a directory (`Lstat` does not follow symbolic links, so a
link is a leaf whatever it points to), `dir` is a directory with the entries
`readDirNames` lists (in the order it lists them), `dirUnreadable` is a directory whose
listing fails with the given error message, and `lstatFail` is a name on which `Lstat`
fails with the given error message. -/
inductive Node where
  | leaf (name : String) (mode : LeafMode)
  | dir (name : String) (children : List Node)
  | dirUnreadable (name : String) (err : String)
  | lstatFail (name : String) (err : String)

/-- The name under which a node is listed in its directory. -/
def Node.name : Node → String
  | .leaf name _ => name
  | .dir name _ => name
  | .dirUnreadable name _ => name
  | .lstatFail name _ => name

/-- The node is a directory (for a node on which `Lstat` succeeds, `fileInfo.IsDir()`). -/
def Node.isDir : Node → Bool
  | .dir _ _ => true
  | .dirUnreadable _ _ => true
  | _ => false

/-- The callback type `filepath.WalkFunc`, with the variables the closure captures passed
explicitly as a value of type `α`. -/
abbrev WalkFunc (α : Type) := String → Option FileInfo → Option GoError → α → Option GoError × α

mutual
/-- Go `filepath.walk(path, info, walkFn)` on the node found at `path`.  A node that is not
a directory is handed to `walkFn`; a directory is handed to `walkFn` together with the
error of `readDirNames`, and its entries are walked only when both are nil.  (`walk` is
entered only after a successful `Lstat`; on `lstatFail` it does what both of its callers
do on a failed `Lstat`: call `walkFn` with a nil info and the error.) -/
def walk {α : Type} (join : String → String → String) (path : String) (n : Node)
    (walkFn : WalkFunc α) (acc : α) : Option GoError × α :=
  match n with
  | .leaf name mode => walkFn path (some ⟨name, mode.toFileMode⟩) none acc
  | .dir name children =>
    match walkFn path (some ⟨name, .dir⟩) none acc with
    | (some err1, acc1) => (some err1, acc1)
    | (none, acc1) => walkNames join path children walkFn acc1
  | .dirUnreadable name err => walkFn path (some ⟨name, .dir⟩) (some (.sys err)) acc
  | .lstatFail _ err => walkFn path none (some (.sys err)) acc
/-- The loop `for _, name := range names` of `filepath.walk` over the entries of the
directory at `path`. -/
def walkNames {α : Type} (join : String → String → String) (path : String) (names : List Node)
    (walkFn : WalkFunc α) (acc : α) : Option GoError × α :=
  match names with
  | [] => (none, acc)
  | c :: rest =>
    match c with
    | .lstatFail name err =>
      match walkFn (join path name) none (some (.sys err)) acc with
      | (some e, acc1) =>
        if e ≠ .skipDir then (some e, acc1) else walkNames join path rest walkFn acc1
      | (none, acc1) => walkNames join path rest walkFn acc1
    | _ =>
      match walk join (join path c.name) c walkFn acc with
      | (some e, acc1) =>
        if !c.isDir || e ≠ .skipDir then (some e, acc1)
        else walkNames join path rest walkFn acc1
      | (none, acc1) => walkNames join path rest walkFn acc1
end

/-- Go `filepath.Walk(root, fn)` on the tree found at `root`: `Lstat` the root, hand a
failure to `fn`, walk otherwise, and turn the two sentinels into a nil error. -/
def Walk {α : Type} (join : String → String → String) (root : String) (t : Node)
    (fn : WalkFunc α) (acc : α) : Option GoError × α :=
  let r := match t with
    | .lstatFail _ err => fn root none (some (.sys err)) acc
    | _ => walk join root t fn acc
  match r with
  | (some e, acc1) => if e = .skipDir ∨ e = .skipAll then (none, acc1) else (some e, acc1)
  | (none, acc1) => (none, acc1)

/-! ## Commands, events and the operating system -/

/-- The two streams of the parent process a command can be connected to. -/
inductive Stream where
  | osStdout
  | osStderr
  deriving DecidableEq

/-- The fields of `exec.Cmd` the program sets: the program name and the arguments given to
`exec.Command`, `Env` (`none` is Go's nil: the child inherits the environment of the
parent), `Stdout` and `Stderr` (`none` is Go's nil: the stream is discarded). -/
structure Cmd where
  Path : String
  Args : List String
  Env : Option (List String)
  Stdout : Option Stream
  Stderr : Option Stream
  deriving DecidableEq

/-- The effects of the program on the outside world, in the order it performs them. -/
inductive Event where
  | abs (path : String)
  | mkdirAll (path : String) (perm : Nat)
  | exec (cmd : Cmd)
  | walk (root : String)
  | log (msg : String)
  deriving DecidableEq

/-- The library calls of `main.go`, over a state `σ` of the outside world.  `runCmd` is the
command runner (`cmd.Run()`: nil on exit status 0, an error otherwise); `lstatTree dir`
is the tree `filepath.Walk(dir, _)` observes. -/
structure OS (σ : Type) where
  abs : String → σ → Except GoError String
  mkdirAll : String → Nat → σ → Option GoError × σ
  runCmd : Cmd → σ → Option GoError × σ
  lstatTree : String → σ → Node
  getenv : String → σ → String
  environ : σ → List String
  userHomeDir : σ → Except GoError String
  join : String → String → String
  pathListSeparator : Char

/-- What a function of the program leaves behind: its Go result, the events it performed
and the state of the outside world after them. -/
structure Res (σ α : Type) where
  val : α
  trace : List Event
  state : σ

/-- The commands run by a trace, in order. -/
def commandsRun : List Event → List Cmd
  | [] => []
  | .exec cmd :: rest => cmd :: commandsRun rest
  | _ :: rest => commandsRun rest

/-- The steps of the pipeline a trace performed (command runs, directory creation, path
resolution and tree walks), without the log lines. -/
def steps : List Event → List Event
  | [] => []
  | .log _ :: rest => steps rest
  | e :: rest => e :: steps rest

/-! ## The environment of a child process -/

/-- Split an environment entry `key=value` at its first `=`; `none` when it has none. -/
def splitEntry (entry : String) : Option (String × String) :=
  match entry.data.span (fun c => c != '=') with
  | (k, _ :: v) => some (⟨k⟩, ⟨v⟩)
  | (_, []) => none

/-- The value of variable `key` in an environment list, the last assignment winning
(as `os/exec` resolves duplicates). -/
def envLookup (env : List String) (key : String) : Option String :=
  (env.reverse.filterMap splitEntry).lookup key

/-- The environment the child process of a command runs with: `cmd.Env`, or the parent
environment when `cmd.Env` is nil. -/
def Cmd.effectiveEnv {σ : Type} (os : OS σ) (cmd : Cmd) (s : σ) : List String :=
  match cmd.Env with
  | some env => env
  | none => os.environ s

/-! ## The functions of `main.go` -/

/-- Go `installPlugins` (main.go, lines 76-96). -/
def installPlugins {σ : Type} (os : OS σ) (goVersion grpcVersion : String) (s : σ) :
    Res σ (Option GoError) :=
  let l := Event.log ("Ensuring plugins are installed: protoc-gen-go@" ++ goVersion ++
    ", protoc-gen-go-grpc@" ++ grpcVersion)
  let cmd1 := Cmd.mk "go" ["install", "google.golang.org/protobuf/cmd/protoc-gen-go@" ++ goVersion]
    none (some .osStdout) (some .osStderr)
  match os.runCmd cmd1 s with
  | (some err, s1) =>
    ⟨some (.wrapped "failed to install protoc-gen-go: " err), [l, .exec cmd1], s1⟩
  | (none, s1) =>
    let cmd2 := Cmd.mk "go"
      ["install", "google.golang.org/grpc/cmd/protoc-gen-go-grpc@" ++ grpcVersion]
      none (some .osStdout) (some .osStderr)
    match os.runCmd cmd2 s1 with
    | (some err, s2) =>
      ⟨some (.wrapped "failed to install protoc-gen-go-grpc: " err),
        [l, .exec cmd1, .exec cmd2], s2⟩
    | (none, s2) => ⟨none, [l, .exec cmd1, .exec cmd2], s2⟩

/-- The closure `findProtoFiles` passes to `filepath.Walk` (main.go, lines 100-108), with
the captured slice `files` passed explicitly.  (`Walk` gives a nil info only together
with an error, so the last case is never reached.) -/
def findProtoFilesFunc : WalkFunc (List String) :=
  fun path info err files =>
    match err with
    | some e => (some e, files)
    | none =>
      match info with
      | some i =>
        if !i.IsDir && HasSuffix i.Name ".proto" then (none, files ++ [path])
        else (none, files)
      | none => (none, files)

/-- Go `findProtoFiles` (main.go, lines 98-110): the collected paths and the error of the
walk. -/
def findProtoFiles {σ : Type} (os : OS σ) (dir : String) (s : σ) :
    List String × Option GoError :=
  let r := Walk os.join dir (os.lstatTree dir s) findProtoFilesFunc []
  (r.2, r.1)

/-- Go `getGoBin` (main.go, lines 148-166). -/
def getGoBin {σ : Type} (os : OS σ) (s : σ) : Except GoError String :=
  let goBin := os.getenv "GOBIN" s
  if goBin ≠ "" then .ok goBin
  else
    let goPath := os.getenv "GOPATH" s
    if goPath = "" then
      match os.userHomeDir s with
      | .error err => .error err
      | .ok home => .ok (os.join (os.join home "go") "bin")
    else .ok (os.join goPath "bin")

/-- Go `generateCode` (main.go, lines 112-146). -/
def generateCode {σ : Type} (os : OS σ) (files : List String)
    (protoInclude outDir goOut grpcOut : String) (s : σ) : Res σ (Option GoError) :=
  let args := ["-I", protoInclude,
    "--go_out=" ++ outDir,
    "--go_opt=paths=source_relative",
    "--go-grpc_out=" ++ outDir,
    "--go-grpc_opt=paths=source_relative"] ++ files
  let cmd := Cmd.mk "protoc" args none (some .osStdout) (some .osStderr)
  let prep : Cmd × List Event :=
    match getGoBin os s with
    | .ok goBin =>
      let newPath := goBin ++ String.singleton os.pathListSeparator ++ os.getenv "PATH" s
      (Cmd.mk cmd.Path cmd.Args (some (os.environ s ++ ["PATH=" ++ newPath])) cmd.Stdout cmd.Stderr,
        [])
    | .error err => (cmd, [.log ("Warning: could not determine GOPATH/bin: " ++ err.Error)])
  let t := prep.2 ++ [.log "Running protoc...", .exec prep.1]
  match os.runCmd prep.1 s with
  | (some err, s1) => ⟨some (.wrapped "protoc execution failed: " err), t, s1⟩
  | (none, s1) => ⟨none, t, s1⟩

/-- Go `run` (main.go, lines 36-74). -/
def run {σ : Type} (os : OS σ)
    (protoDir outDir goOut grpcOut goVersion grpcVersion : String) (s : σ) :
    Res σ (Option GoError) :=
  match os.abs protoDir s with
  | .error err => ⟨some (.wrapped "failed to resolving proto dir: " err), [.abs protoDir], s⟩
  | .ok absProtoDir =>
    match os.abs outDir s with
    | .error err =>
      ⟨some (.wrapped "failed to resolving out dir: " err), [.abs protoDir, .abs outDir], s⟩
    | .ok absOutDir =>
      let t1 := [Event.abs protoDir, .abs outDir, .mkdirAll absOutDir 0o755]
      match os.mkdirAll absOutDir 0o755 s with
      | (some err, s1) => ⟨some (.wrapped "failed to create output directory: " err), t1, s1⟩
      | (none, s1) =>
        let r2 := installPlugins os goVersion grpcVersion s1
        match r2.val with
        | some err => ⟨some (.wrapped "failed to install plugins: " err), t1 ++ r2.trace, r2.state⟩
        | none =>
          let t3 := t1 ++ r2.trace ++ [.walk absProtoDir]
          match findProtoFiles os absProtoDir r2.state with
          | (_, some err) => ⟨some (.wrapped "failed to find proto files: " err), t3, r2.state⟩
          | (protoFiles, none) =>
            if protoFiles.length = 0 then
              ⟨none, t3 ++ [.log ("No .proto files found in " ++ absProtoDir)], r2.state⟩
            else
              let r4 := generateCode os protoFiles absProtoDir absOutDir goOut grpcOut r2.state
              match r4.val with
              | some err =>
                ⟨some (.wrapped "failed to generate code: " err), t3 ++ r4.trace, r4.state⟩
              | none =>
                ⟨none, t3 ++ r4.trace ++ [.log "Generation completed successfully!"], r4.state⟩

/-! ## Specification-side definitions -/

mutual
/-- Every entry of the tree found at `path` on which `Lstat` succeeds, with its path: the
node itself and, for a directory, the entries below it, each at the path of its directory
joined with its name. -/
def entries (join : String → String → String) (path : String) : Node → List (String × FileInfo)
  | .leaf name mode => [(path, ⟨name, mode.toFileMode⟩)]
  | .dir name children => (path, ⟨name, .dir⟩) :: entriesOfNames join path children
  | .dirUnreadable name _ => [(path, ⟨name, .dir⟩)]
  | .lstatFail _ _ => []
/-- The entries below the directory at `path` whose listing is `names`. -/
def entriesOfNames (join : String → String → String) (path : String) :
    List Node → List (String × FileInfo)
  | [] => []
  | c :: rest => entries join (join path c.name) c ++ entriesOfNames join path rest
end

mutual
/-- The tree is walked without error: every `Lstat` and every directory listing succeeds. -/
def errFree : Node → Bool
  | .leaf _ _ => true
  | .dir _ children => errFreeNames children
  | .dirUnreadable _ _ => false
  | .lstatFail _ _ => false
/-- Every tree of the list is walked without error. -/
def errFreeNames : List Node → Bool
  | [] => true
  | c :: rest => errFree c && errFreeNames rest
end

/-- The paths the specification asks of the discoverer, in its words: the regular files
whose name ends in ".proto". -/
def regularProtoPaths (join : String → String → String) (root : String) (t : Node) :
    List String :=
  ((entries join root t).filter (fun e => e.2.IsRegular && HasSuffix e.2.Name ".proto")).map
    Prod.fst

/-- The paths of the entries that are not directories and whose name ends in ".proto". -/
def nonDirProtoPaths (join : String → String → String) (root : String) (t : Node) :
    List String :=
  ((entries join root t).filter (fun e => !e.2.IsDir && HasSuffix e.2.Name ".proto")).map
    Prod.fst

/-- The argument list the comment above the body of `generateCode` documents
(main.go, line 114). -/
def documentedArgs (files : List String) (protoInclude outDir : String) : List String :=
  ["--go_out=" ++ outDir,
    "--go_out_opt=paths=source_relative",
    "--go-grpc_out=" ++ outDir,
    "--go-grpc_opt=paths=source_relative",
    "-I", protoInclude] ++ files

/-- The package-installer command `go install target`, with its output streams forwarded
to the console. -/
def goInstall (target : String) : Cmd :=
  Cmd.mk "go" ["install", target] none (some .osStdout) (some .osStderr)

/-! ## Concrete worlds -/

/-- The value of `filepath.Join(dir, name)` on Unix for a clean `dir` and a plain `name`. -/
def unixJoin (dir name : String) : String :=
  if dir = "" ∨ dir = "." then name
  else if dir = "/" then "/" ++ name
  else dir ++ "/" ++ name

/-- A world without state: absolute paths resolve to themselves, directory creation and
every command succeed, `GOBIN` and `GOPATH` are unset, the home directory is `/home/u`,
and every walk observes `tree`. -/
def stillOS (tree : Node) : OS Unit where
  abs := fun p _ => .ok p
  mkdirAll := fun _ _ s => (none, s)
  runCmd := fun _ s => (none, s)
  lstatTree := fun _ _ => tree
  getenv := fun k _ => if k = "PATH" then "/usr/bin" else ""
  environ := fun _ => ["HOME=/home/u", "PATH=/usr/bin"]
  userHomeDir := fun _ => .ok "/home/u"
  join := unixJoin
  pathListSeparator := ':'

/-- The tree of the scenario: `a/x.proto`, `a/b/y.proto` and `c/readme.md`. -/
def scenarioTree : Node :=
  .dir "." [
    .dir "a" [.dir "b" [.leaf "y.proto" .regular], .leaf "x.proto" .regular],
    .dir "c" [.leaf "readme.md" .regular]]

/-- A directory `/w` that holds a symbolic link named `l.proto` and a directory named
`d.proto` with a regular file `z.proto`. -/
def linkTree : Node :=
  .dir "w" [.dir "d.proto" [.leaf "z.proto" .regular], .leaf "l.proto" .symlink]

/-- A directory `/w` with one regular file `a.proto`. -/
def oneFileTree : Node :=
  .dir "w" [.leaf "a.proto" .regular]

/-- An empty directory. -/
def emptyTree : Node :=
  .dir "w" []

/-- The error of a command that exits with status 1. -/
def exit1 : GoError := .sys "exit status 1"

/-- The world `stillOS tree` in which exactly the commands selected by `fails` exit with
status 1. -/
def failingOS (tree : Node) (fails : Cmd → Bool) : OS Unit :=
  { stillOS tree with runCmd := fun cmd s => (if fails cmd then some exit1 else none, s) }

/-- The world `stillOS tree` in which the current directory cannot be determined, so that
only absolute paths resolve. -/
def noCwdOS (tree : Node) : OS Unit :=
  { stillOS tree with
    abs := fun p _ =>
      match p.data with
      | '/' :: _ => .ok p
      | _ => .error (.sys "getwd: no such file or directory") }

/-- The world `stillOS tree` in which no directory can be created. -/
def readOnlyOS (tree : Node) : OS Unit :=
  { stillOS tree with mkdirAll := fun p _ s => (some (.sys ("mkdir " ++ p ++ ": permission denied")), s) }

/-- A world with the given values of `GOBIN` and `GOPATH` and the given result of the
home-directory lookup. -/
def envOS (gobin gopath : String) (home : Except GoError String) : OS Unit :=
  { stillOS emptyTree with
    getenv := fun k _ =>
      if k = "GOBIN" then gobin else if k = "GOPATH" then gopath
      else if k = "PATH" then "/usr/bin" else ""
    userHomeDir := fun _ => home }

/-- A world whose state counts the commands run so far; everything succeeds and every
walk observes `tree`. -/
def countingOS (tree : Node) : OS Nat where
  abs := fun p _ => .ok p
  mkdirAll := fun _ _ s => (none, s)
  runCmd := fun _ s => (none, s + 1)
  lstatTree := fun _ _ => tree
  getenv := fun k _ => if k = "PATH" then "/usr/bin" else ""
  environ := fun _ => ["HOME=/home/u", "PATH=/usr/bin"]
  userHomeDir := fun _ => .ok "/home/u"
  join := unixJoin
  pathListSeparator := ':'

/-- A proto directory that does not exist: `Lstat` fails on the root. -/
def missingTree : Node :=
  .lstatFail "missing" "lstat /missing: no such file or directory"

/-! ## The command `generateCode` builds -/

/-- The commands `generateCode` runs: one `protoc` command, with the flags followed by the
files, and with `PATH` appended to the environment when `getGoBin` succeeds. -/
theorem commandsRun_generateCode {σ : Type} (os : OS σ) (files : List String)
    (protoInclude outDir goOut grpcOut : String) (s : σ) :
    commandsRun (generateCode os files protoInclude outDir goOut grpcOut s).trace =
      [Cmd.mk "protoc"
        (["-I", protoInclude, "--go_out=" ++ outDir, "--go_opt=paths=source_relative",
          "--go-grpc_out=" ++ outDir, "--go-grpc_opt=paths=source_relative"] ++ files)
        (match getGoBin os s with
          | .ok goBin => some (os.environ s ++
              ["PATH=" ++ (goBin ++ String.singleton os.pathListSeparator ++ os.getenv "PATH" s)])
          | .error _ => none)
        (some .osStdout) (some .osStderr)] := by
  unfold generateCode
  cases hg : getGoBin os s <;> simp only [] <;> split <;> simp [commandsRun]

/-- Claim C1: the protoc argument list built by generateCode is a list of six flag
arguments, the same whatever the files are, followed by the discovered files in discovery
order: the files are its trailing arguments, each occurrence of a path in the file list is
one trailing argument, and the include flag `-I` is one of the six flag arguments and is
immediately followed by the proto-include directory. -/
theorem C1_files_trail_and_include_flag {σ : Type} (os : OS σ) (files : List String)
    (protoInclude outDir goOut grpcOut : String) (s : σ) :
    ∃ cmd cmd0 : Cmd,
      commandsRun (generateCode os files protoInclude outDir goOut grpcOut s).trace = [cmd] ∧
      commandsRun (generateCode os [] protoInclude outDir goOut grpcOut s).trace = [cmd0] ∧
      cmd.Path = "protoc" ∧
      cmd.Args = cmd0.Args ++ files ∧
      cmd0.Args.length = 6 ∧
      files <:+ cmd.Args ∧
      cmd.Args.drop 6 = files ∧
      (∀ p, (cmd.Args.drop 6).count p = files.count p) ∧
      (files.Nodup → ∀ p ∈ files, (cmd.Args.drop 6).count p = 1) ∧
      (∀ i, i < files.length → cmd.Args[6 + i]? = files[i]?) ∧
      (∃ j, j + 1 < 6 ∧ cmd.Args[j]? = some "-I" ∧ cmd.Args[j + 1]? = some protoInclude) := by
  refine ⟨_, _, commandsRun_generateCode os files protoInclude outDir goOut grpcOut s,
    commandsRun_generateCode os [] protoInclude outDir goOut grpcOut s, rfl, ?_, rfl, ?_, ?_,
    ?_, ?_, ?_, ?_⟩
  · simp
  · exact ⟨_, rfl⟩
  · simp
  · intro p; simp
  · intro hnd p hp
    simpa using List.count_eq_one_of_mem hnd hp
  · intro i _
    simp [List.getElem?_cons_succ, Nat.add_comm 6 i]
  · exact ⟨0, by decide, rfl, rfl⟩

/-- Claim C1, at a concrete input: two discovered files under `/w`. -/
theorem C1_files_trail_and_include_flag_witness :
    ∃ cmd cmd0 : Cmd,
      commandsRun (generateCode (stillOS oneFileTree) ["/w/a.proto", "/w/b/c.proto"]
        "/w" "/o" "." "." ()).trace = [cmd] ∧
      commandsRun (generateCode (stillOS oneFileTree) [] "/w" "/o" "." "." ()).trace = [cmd0] ∧
      cmd.Path = "protoc" ∧
      cmd.Args = cmd0.Args ++ ["/w/a.proto", "/w/b/c.proto"] ∧
      cmd0.Args.length = 6 ∧
      ["/w/a.proto", "/w/b/c.proto"] <:+ cmd.Args ∧
      cmd.Args.drop 6 = ["/w/a.proto", "/w/b/c.proto"] ∧
      (∀ p, (cmd.Args.drop 6).count p = ["/w/a.proto", "/w/b/c.proto"].count p) ∧
      (["/w/a.proto", "/w/b/c.proto"].Nodup →
        ∀ p ∈ ["/w/a.proto", "/w/b/c.proto"], (cmd.Args.drop 6).count p = 1) ∧
      (∀ i, i < ["/w/a.proto", "/w/b/c.proto"].length →
        cmd.Args[6 + i]? = ["/w/a.proto", "/w/b/c.proto"][i]?) ∧
      (∃ j, j + 1 < 6 ∧ cmd.Args[j]? = some "-I" ∧ cmd.Args[j + 1]? = some "/w") :=
  C1_files_trail_and_include_flag (stillOS oneFileTree) ["/w/a.proto", "/w/b/c.proto"]
    "/w" "/o" "." "." ()

/-- Claim C6: both generator-output flags built by generateCode point at the single
output directory (`--go_out=` followed by outDir is the third argument, `--go-grpc_out=`
followed by outDir the fifth, and both are in the argument list), and two calls that differ
only in the sub-output fragments goOut and grpcOut build the same command and behave the
same: the two fragments never influence the invocation. -/
theorem C6_outputs_share_outDir_fragments_ignored {σ : Type} (os : OS σ) (files : List String)
    (protoInclude outDir goOut grpcOut : String) (s : σ) :
    (∃ cmd : Cmd,
      commandsRun (generateCode os files protoInclude outDir goOut grpcOut s).trace = [cmd] ∧
      cmd.Path = "protoc" ∧
      ("--go_out=" ++ outDir) ∈ cmd.Args ∧
      ("--go-grpc_out=" ++ outDir) ∈ cmd.Args ∧
      cmd.Args[2]? = some ("--go_out=" ++ outDir) ∧
      cmd.Args[4]? = some ("--go-grpc_out=" ++ outDir)) ∧
    (∀ goOut2 grpcOut2 : String,
      commandsRun (generateCode os files protoInclude outDir goOut2 grpcOut2 s).trace =
        commandsRun (generateCode os files protoInclude outDir goOut grpcOut s).trace ∧
      generateCode os files protoInclude outDir goOut2 grpcOut2 s =
        generateCode os files protoInclude outDir goOut grpcOut s) := by
  refine ⟨⟨_, commandsRun_generateCode os files protoInclude outDir goOut grpcOut s, rfl,
    ?_, ?_, rfl, rfl⟩, fun _ _ => ⟨rfl, rfl⟩⟩
  · simp
  · simp

/-- The command generateCode builds, for every input: `protoc` with the arguments, in this
order, `-I`, the proto directory, `--go_out=` and the output directory,
`--go_opt=paths=source_relative`, `--go-grpc_out=` and the output directory,
`--go-grpc_opt=paths=source_relative`, followed by the files. -/
theorem generateCode_protoc_command {σ : Type} (os : OS σ) (files : List String)
    (protoInclude outDir goOut grpcOut : String) (s : σ) :
    ∃ cmd : Cmd,
      commandsRun (generateCode os files protoInclude outDir goOut grpcOut s).trace = [cmd] ∧
      cmd.Path = "protoc" ∧
      cmd.Args = ["-I", protoInclude,
        "--go_out=" ++ outDir,
        "--go_opt=paths=source_relative",
        "--go-grpc_out=" ++ outDir,
        "--go-grpc_opt=paths=source_relative"] ++ files ∧
      "--go_opt=paths=source_relative" ∈ cmd.Args ∧
      "--go-grpc_opt=paths=source_relative" ∈ cmd.Args :=
  ⟨_, commandsRun_generateCode os files protoInclude outDir goOut grpcOut s, rfl, rfl,
    by simp, by simp⟩

/-- Claim C9: the code departs from the command its comment documents.  For the file
`/w/a.proto`, include directory `/w` and output directory `/o` the argument list
generateCode builds is `-I`, `/w`, `--go_out=/o`, `--go_opt=paths=source_relative`,
`--go-grpc_out=/o`, `--go-grpc_opt=paths=source_relative`, `/w/a.proto`, while the comment
above the body documents `--go_out=/o`, `--go_out_opt=paths=source_relative`,
`--go-grpc_out=/o`, `--go-grpc_opt=paths=source_relative`, `-I`, `/w`, `/w/a.proto`: the
two lists differ, and the documented `--go_out_opt=paths=source_relative` is no argument of
the command built. -/
theorem C9_built_command_differs_from_documented :
    (commandsRun (generateCode (stillOS oneFileTree) ["/w/a.proto"] "/w" "/o" "." "." ()).trace).map
        Cmd.Args =
      [["-I", "/w", "--go_out=/o", "--go_opt=paths=source_relative", "--go-grpc_out=/o",
        "--go-grpc_opt=paths=source_relative", "/w/a.proto"]] ∧
    documentedArgs ["/w/a.proto"] "/w" "/o" =
      ["--go_out=/o", "--go_out_opt=paths=source_relative", "--go-grpc_out=/o",
        "--go-grpc_opt=paths=source_relative", "-I", "/w", "/w/a.proto"] ∧
    (commandsRun (generateCode (stillOS oneFileTree) ["/w/a.proto"] "/w" "/o" "." "." ()).trace).map
        Cmd.Args ≠ [documentedArgs ["/w/a.proto"] "/w" "/o"] ∧
    "--go_out_opt=paths=source_relative" ∉
      ((commandsRun (generateCode (stillOS oneFileTree) ["/w/a.proto"] "/w" "/o" "." "."
        ()).trace).map Cmd.Args).flatten := by
  decide

/-! ## `getGoBin` and the environment of the compiler -/

/-- Claim C7: getGoBin resolves the plugin-binary directory by strict priority: a non-empty
GOBIN is returned unchanged, whatever GOPATH and the home directory are; otherwise a
non-empty GOPATH is returned joined with "bin"; otherwise the home directory is returned
joined with "go" and then "bin"; and getGoBin returns an error exactly when GOBIN and
GOPATH are both empty and the home directory cannot be determined (the error is then the
one of the home-directory lookup). -/
theorem C7_getGoBin_priority {σ : Type} (os : OS σ) (s : σ) :
    (os.getenv "GOBIN" s ≠ "" → getGoBin os s = .ok (os.getenv "GOBIN" s)) ∧
    (os.getenv "GOBIN" s = "" → os.getenv "GOPATH" s ≠ "" →
      getGoBin os s = .ok (os.join (os.getenv "GOPATH" s) "bin")) ∧
    (os.getenv "GOBIN" s = "" → os.getenv "GOPATH" s = "" →
      ∀ home, os.userHomeDir s = .ok home →
        getGoBin os s = .ok (os.join (os.join home "go") "bin")) ∧
    (∀ err, getGoBin os s = .error err ↔
      os.getenv "GOBIN" s = "" ∧ os.getenv "GOPATH" s = "" ∧ os.userHomeDir s = .error err) := by
  refine ⟨?_, ?_, ?_, ?_⟩
  · intro h
    simp [getGoBin, h]
  · intro h1 h2
    simp [getGoBin, h1, h2]
  · intro h1 h2 home hh
    simp [getGoBin, h1, h2, hh]
  · intro err
    unfold getGoBin
    by_cases h1 : os.getenv "GOBIN" s = ""
    · by_cases h2 : os.getenv "GOPATH" s = ""
      · cases hh : os.userHomeDir s <;> simp [h1, h2]
      · simp [h1, h2]
    · simp [h1]

/-- An entry `PATH=v` splits into the key `PATH` and the value `v`. -/
theorem splitEntry_PATH (v : String) : splitEntry ("PATH=" ++ v) = some ("PATH", v) := by
  have h : ("PATH=" ++ v).data = 'P' :: 'A' :: 'T' :: 'H' :: '=' :: v.data := by
    simp [String.data_append]
  unfold splitEntry
  rw [h]
  simp [List.span, List.span.loop]

/-- After `PATH=v` is appended to an environment, `PATH` has the value `v`. -/
theorem envLookup_append_PATH (env : List String) (v : String) :
    envLookup (env ++ ["PATH=" ++ v]) "PATH" = some v := by
  simp [envLookup, splitEntry_PATH, List.lookup]

/-- Appending `PATH=v` to an environment leaves every other variable as it was. -/
theorem envLookup_append_other (env : List String) (v k : String) (h : k ≠ "PATH") :
    envLookup (env ++ ["PATH=" ++ v]) k = envLookup env k := by
  have hk : (k == "PATH") = false := by simpa using h
  simp [envLookup, splitEntry_PATH, List.lookup, hk]

/-- Claim C8: the environment generateCode gives the compiler is the parent environment
with only the search path overridden.  When getGoBin succeeds with directory d, the one
command run is `protoc`, PATH in its environment (last assignment wins) is d, the
path-list separator and the parent PATH, and every other variable has the value it has in
the parent environment.  When getGoBin fails, the one command run is still `protoc`, with
a nil environment, i.e. the parent environment unchanged, and the result of generateCode
is the result of that run. -/
theorem C8_compiler_environment {σ : Type} (os : OS σ) (files : List String)
    (protoInclude outDir goOut grpcOut : String) (s : σ) :
    (∀ d, getGoBin os s = .ok d →
      ∃ cmd : Cmd,
        commandsRun (generateCode os files protoInclude outDir goOut grpcOut s).trace = [cmd] ∧
        cmd.Path = "protoc" ∧
        cmd.Env = some (os.environ s ++
          ["PATH=" ++ (d ++ String.singleton os.pathListSeparator ++ os.getenv "PATH" s)]) ∧
        envLookup (cmd.effectiveEnv os s) "PATH" =
          some (d ++ String.singleton os.pathListSeparator ++ os.getenv "PATH" s) ∧
        (∀ k, k ≠ "PATH" →
          envLookup (cmd.effectiveEnv os s) k = envLookup (os.environ s) k)) ∧
    (∀ err, getGoBin os s = .error err →
      ∃ cmd : Cmd,
        commandsRun (generateCode os files protoInclude outDir goOut grpcOut s).trace = [cmd] ∧
        cmd.Path = "protoc" ∧
        cmd.Env = none ∧
        cmd.effectiveEnv os s = os.environ s ∧
        (generateCode os files protoInclude outDir goOut grpcOut s).val =
          (os.runCmd cmd s).1.map (GoError.wrapped "protoc execution failed: ") ∧
        (generateCode os files protoInclude outDir goOut grpcOut s).state =
          (os.runCmd cmd s).2) := by
  constructor
  · intro d hd
    refine ⟨_, commandsRun_generateCode os files protoInclude outDir goOut grpcOut s, rfl,
      ?_, ?_, ?_⟩
    · simp [hd]
    · simp only [Cmd.effectiveEnv, hd]
      exact envLookup_append_PATH _ _
    · intro k hk
      simp only [Cmd.effectiveEnv, hd]
      exact envLookup_append_other _ _ _ hk
  · intro err he
    refine ⟨_, commandsRun_generateCode os files protoInclude outDir goOut grpcOut s, rfl,
      ?_, ?_, ?_, ?_⟩
    · simp [he]
    · simp [Cmd.effectiveEnv, he]
    · simp only [generateCode, he]
      split <;> simp_all
    · simp only [generateCode, he]
      split <;> simp_all

/-! ## `installPlugins` -/

/-- The two install targets differ whatever the version selectors are. -/
theorem target_ne (v w : String) :
    "google.golang.org/protobuf/cmd/protoc-gen-go@" ++ v ≠
      "google.golang.org/grpc/cmd/protoc-gen-go-grpc@" ++ w := by
  intro h
  have h2 := congrArg String.data h
  simp [String.data_append] at h2

/-- When the first install fails, `installPlugins` stops after it. -/
theorem installPlugins_first_fails {σ : Type} (os : OS σ) (goVersion grpcVersion : String)
    (s s1 : σ) (err : GoError)
    (h : os.runCmd (goInstall ("google.golang.org/protobuf/cmd/protoc-gen-go@" ++ goVersion)) s
      = (some err, s1)) :
    installPlugins os goVersion grpcVersion s =
      ⟨some (.wrapped "failed to install protoc-gen-go: " err),
        [.log ("Ensuring plugins are installed: protoc-gen-go@" ++ goVersion ++
            ", protoc-gen-go-grpc@" ++ grpcVersion),
          .exec (goInstall ("google.golang.org/protobuf/cmd/protoc-gen-go@" ++ goVersion))],
        s1⟩ := by
  unfold goInstall at h
  simp [installPlugins, goInstall, h]

/-- When the first install succeeds and the second fails, `installPlugins` reports the
second plugin. -/
theorem installPlugins_second_fails {σ : Type} (os : OS σ) (goVersion grpcVersion : String)
    (s s1 s2 : σ) (err : GoError)
    (h1 : os.runCmd (goInstall ("google.golang.org/protobuf/cmd/protoc-gen-go@" ++ goVersion)) s
      = (none, s1))
    (h2 : os.runCmd (goInstall ("google.golang.org/grpc/cmd/protoc-gen-go-grpc@" ++ grpcVersion))
      s1 = (some err, s2)) :
    installPlugins os goVersion grpcVersion s =
      ⟨some (.wrapped "failed to install protoc-gen-go-grpc: " err),
        [.log ("Ensuring plugins are installed: protoc-gen-go@" ++ goVersion ++
            ", protoc-gen-go-grpc@" ++ grpcVersion),
          .exec (goInstall ("google.golang.org/protobuf/cmd/protoc-gen-go@" ++ goVersion)),
          .exec (goInstall ("google.golang.org/grpc/cmd/protoc-gen-go-grpc@" ++ grpcVersion))],
        s2⟩ := by
  unfold goInstall at h1 h2
  simp [installPlugins, goInstall, h1, h2]

/-- When both installs succeed, `installPlugins` has run both and returns nil. -/
theorem installPlugins_both_succeed {σ : Type} (os : OS σ) (goVersion grpcVersion : String)
    (s s1 s2 : σ)
    (h1 : os.runCmd (goInstall ("google.golang.org/protobuf/cmd/protoc-gen-go@" ++ goVersion)) s
      = (none, s1))
    (h2 : os.runCmd (goInstall ("google.golang.org/grpc/cmd/protoc-gen-go-grpc@" ++ grpcVersion))
      s1 = (none, s2)) :
    installPlugins os goVersion grpcVersion s =
      ⟨none,
        [.log ("Ensuring plugins are installed: protoc-gen-go@" ++ goVersion ++
            ", protoc-gen-go-grpc@" ++ grpcVersion),
          .exec (goInstall ("google.golang.org/protobuf/cmd/protoc-gen-go@" ++ goVersion)),
          .exec (goInstall ("google.golang.org/grpc/cmd/protoc-gen-go-grpc@" ++ grpcVersion))],
        s2⟩ := by
  unfold goInstall at h1 h2
  simp [installPlugins, goInstall, h1, h2]

/-- Every command `installPlugins` runs is a `go` command. -/
theorem installPlugins_runs_go {σ : Type} (os : OS σ) (goVersion grpcVersion : String) (s : σ) :
    ∀ cmd ∈ commandsRun (installPlugins os goVersion grpcVersion s).trace, cmd.Path = "go" := by
  intro cmd
  unfold installPlugins
  simp only []
  split
  · simp [commandsRun]
    rintro rfl; rfl
  · split <;>
    · simp [commandsRun]
      rintro (rfl | rfl) <;> rfl

/-- Claim C4: for every pair of version selectors, if the installer command for the first
plugin (protoc-gen-go) fails, installPlugins runs that one command only, never issues the
install command for the second plugin (protoc-gen-go-grpc), and returns an error that wraps
the error of the installer and names protoc-gen-go; run, reaching installPlugins in that
state, returns an error that wraps the error of installPlugins and runs no other command. -/
theorem C4_first_install_failure_is_fatal {σ : Type} (os : OS σ)
    (goVersion grpcVersion : String) (s s1 : σ) (err : GoError)
    (h : os.runCmd (goInstall ("google.golang.org/protobuf/cmd/protoc-gen-go@" ++ goVersion)) s
      = (some err, s1)) :
    (installPlugins os goVersion grpcVersion s).val =
      some (.wrapped "failed to install protoc-gen-go: " err) ∧
    commandsRun (installPlugins os goVersion grpcVersion s).trace =
      [goInstall ("google.golang.org/protobuf/cmd/protoc-gen-go@" ++ goVersion)] ∧
    (∀ v, goInstall ("google.golang.org/grpc/cmd/protoc-gen-go-grpc@" ++ v) ∉
      commandsRun (installPlugins os goVersion grpcVersion s).trace) ∧
    (∀ e, (installPlugins os goVersion grpcVersion s).val = some e →
      e.Unwrap = some err ∧ e.Error = "failed to install protoc-gen-go: " ++ err.Error) ∧
    (∀ (protoDir outDir goOut grpcOut absProtoDir absOutDir : String) (s0 : σ),
      os.abs protoDir s0 = .ok absProtoDir → os.abs outDir s0 = .ok absOutDir →
      os.mkdirAll absOutDir 0o755 s0 = (none, s) →
      (run os protoDir outDir goOut grpcOut goVersion grpcVersion s0).val =
        some (.wrapped "failed to install plugins: "
          (.wrapped "failed to install protoc-gen-go: " err)) ∧
      (∀ e, (run os protoDir outDir goOut grpcOut goVersion grpcVersion s0).val = some e →
        e.Error = "failed to install plugins: " ++ ("failed to install protoc-gen-go: " ++
          err.Error)) ∧
      commandsRun (run os protoDir outDir goOut grpcOut goVersion grpcVersion s0).trace =
        [goInstall ("google.golang.org/protobuf/cmd/protoc-gen-go@" ++ goVersion)] ∧
      (∀ v, goInstall ("google.golang.org/grpc/cmd/protoc-gen-go-grpc@" ++ v) ∉
        commandsRun (run os protoDir outDir goOut grpcOut goVersion grpcVersion s0).trace)) := by
  have hi := installPlugins_first_fails os goVersion grpcVersion s s1 err h
  have hne : ∀ v, goInstall ("google.golang.org/grpc/cmd/protoc-gen-go-grpc@" ++ v) ≠
      goInstall ("google.golang.org/protobuf/cmd/protoc-gen-go@" ++ goVersion) := by
    intro v hv
    have h3 : "google.golang.org/grpc/cmd/protoc-gen-go-grpc@" ++ v =
        "google.golang.org/protobuf/cmd/protoc-gen-go@" ++ goVersion := by
      simpa [goInstall] using hv
    exact target_ne goVersion v h3.symm
  refine ⟨by rw [hi], by rw [hi]; simp [commandsRun], ?_, ?_, ?_⟩
  · intro v
    rw [hi]
    simpa [commandsRun] using hne v
  · intro e he
    rw [hi] at he
    simp only [Option.some.injEq] at he
    subst he
    exact ⟨rfl, rfl⟩
  · intro protoDir outDir goOut grpcOut absProtoDir absOutDir s0 h1 h2 h3
    have hr : run os protoDir outDir goOut grpcOut goVersion grpcVersion s0 =
        ⟨some (.wrapped "failed to install plugins: "
            (.wrapped "failed to install protoc-gen-go: " err)),
          [.abs protoDir, .abs outDir, .mkdirAll absOutDir 0o755] ++
            [.log ("Ensuring plugins are installed: protoc-gen-go@" ++ goVersion ++
                ", protoc-gen-go-grpc@" ++ grpcVersion),
              .exec (goInstall ("google.golang.org/protobuf/cmd/protoc-gen-go@" ++ goVersion))],
          s1⟩ := by
      simp [run, h1, h2, h3, hi]
    refine ⟨by rw [hr], ?_, by rw [hr]; simp [commandsRun], ?_⟩
    · intro e he
      rw [hr] at he
      simp only [Option.some.injEq] at he
      subst he
      rfl
    · intro v
      rw [hr]
      simpa [commandsRun] using hne v

/-- Claim C4, at a concrete input: in a world where every `go` command exits with status 1,
with the version selectors `v1.31.0` and `latest`. -/
theorem C4_first_install_failure_is_fatal_witness :
    (installPlugins (failingOS oneFileTree (fun cmd => cmd.Path = "go")) "v1.31.0" "latest"
        ()).val = some (.wrapped "failed to install protoc-gen-go: " exit1) ∧
    commandsRun (run (failingOS oneFileTree (fun cmd => cmd.Path = "go")) "/w" "/o" "." "."
        "v1.31.0" "latest" ()).trace =
      [goInstall "google.golang.org/protobuf/cmd/protoc-gen-go@v1.31.0"] ∧
    (run (failingOS oneFileTree (fun cmd => cmd.Path = "go")) "/w" "/o" "." "."
        "v1.31.0" "latest" ()).val =
      some (.wrapped "failed to install plugins: "
        (.wrapped "failed to install protoc-gen-go: " exit1)) := by
  have h := C4_first_install_failure_is_fatal (failingOS oneFileTree (fun cmd => cmd.Path = "go"))
    "v1.31.0" "latest" () () exit1 (by decide)
  exact ⟨h.1, (h.2.2.2.2 "/w" "/o" "." "." "/w" "/o" () rfl rfl rfl).2.2.1,
    (h.2.2.2.2 "/w" "/o" "." "." "/w" "/o" () rfl rfl rfl).1⟩

/-- Claim C10: for every pair of version selectors, when both installs succeed
installPlugins runs the package installer exactly twice, once per plugin and in this
order: `go install google.golang.org/protobuf/cmd/protoc-gen-go@` followed by goVersion,
then `go install google.golang.org/grpc/cmd/protoc-gen-go-grpc@` followed by grpcVersion;
the first command is the same whatever the second selector is and the second command
the same whatever the first selector is; and installPlugins returns nil. -/
theorem C10_two_installs_in_order {σ : Type} (os : OS σ) (goVersion grpcVersion : String)
    (s s1 s2 : σ)
    (h1 : os.runCmd (goInstall ("google.golang.org/protobuf/cmd/protoc-gen-go@" ++ goVersion)) s
      = (none, s1))
    (h2 : os.runCmd (goInstall ("google.golang.org/grpc/cmd/protoc-gen-go-grpc@" ++ grpcVersion))
      s1 = (none, s2)) :
    commandsRun (installPlugins os goVersion grpcVersion s).trace =
      [Cmd.mk "go" ["install", "google.golang.org/protobuf/cmd/protoc-gen-go@" ++ goVersion]
          none (some .osStdout) (some .osStderr),
        Cmd.mk "go" ["install", "google.golang.org/grpc/cmd/protoc-gen-go-grpc@" ++ grpcVersion]
          none (some .osStdout) (some .osStderr)] ∧
    (commandsRun (installPlugins os goVersion grpcVersion s).trace).length = 2 ∧
    (∀ v, (commandsRun (installPlugins os goVersion v s).trace).head? =
      some (goInstall ("google.golang.org/protobuf/cmd/protoc-gen-go@" ++ goVersion))) ∧
    (∀ v s3, os.runCmd (goInstall ("google.golang.org/protobuf/cmd/protoc-gen-go@" ++ v)) s
        = (none, s3) →
      (commandsRun (installPlugins os v grpcVersion s).trace)[1]? =
        some (goInstall ("google.golang.org/grpc/cmd/protoc-gen-go-grpc@" ++ grpcVersion))) ∧
    (installPlugins os goVersion grpcVersion s).val = none ∧
    (installPlugins os goVersion grpcVersion s).state = s2 := by
  have hi := installPlugins_both_succeed os goVersion grpcVersion s s1 s2 h1 h2
  refine ⟨by rw [hi]; simp [commandsRun, goInstall], by rw [hi]; simp [commandsRun], ?_, ?_,
    by rw [hi], by rw [hi]⟩
  · intro v
    unfold installPlugins
    simp only []
    split
    · simp [commandsRun, goInstall]
    · split <;> simp [commandsRun, goInstall]
  · intro v s3 h3
    unfold goInstall at h3
    unfold installPlugins
    simp only [h3]
    split <;> simp [commandsRun, goInstall]

/-- Claim C10, at a concrete input: in a world that counts the commands it runs, with the
version selectors `v1.31.0` and `latest`. -/
theorem C10_two_installs_in_order_witness :
    commandsRun (installPlugins (countingOS oneFileTree) "v1.31.0" "latest" 0).trace =
      [Cmd.mk "go" ["install", "google.golang.org/protobuf/cmd/protoc-gen-go@v1.31.0"]
          none (some .osStdout) (some .osStderr),
        Cmd.mk "go" ["install", "google.golang.org/grpc/cmd/protoc-gen-go-grpc@latest"]
          none (some .osStdout) (some .osStderr)] ∧
    (installPlugins (countingOS oneFileTree) "v1.31.0" "latest" 0).val = none ∧
    (installPlugins (countingOS oneFileTree) "v1.31.0" "latest" 0).state = 2 := by
  have h := C10_two_installs_in_order (countingOS oneFileTree) "v1.31.0" "latest" 0 1 2
    (by decide) (by decide)
  exact ⟨h.1, h.2.2.2.2.1, h.2.2.2.2.2⟩

/-! ## `run` -/

/-- The commands of a concatenated trace. -/
theorem commandsRun_append (t u : List Event) :
    commandsRun (t ++ u) = commandsRun t ++ commandsRun u := by
  induction t with
  | nil => rfl
  | cons e t ih => cases e <;> simp [commandsRun, ih]

/-- When the root of the walk cannot be examined, `findProtoFiles` returns that error and
no file. -/
theorem findProtoFiles_lstatFail {σ : Type} (os : OS σ) (dir : String) (s : σ)
    (name msg : String) (h : os.lstatTree dir s = .lstatFail name msg) :
    findProtoFiles os dir s = ([], some (.sys msg)) := by
  simp [findProtoFiles, Walk, h, findProtoFilesFunc]

/-- Claim C3: when path resolution, output-directory creation and both plugin installs
succeed and discovery returns an empty file list without error, run returns nil, the only
commands it runs are the two `go install` commands, and `protoc` is never invoked. -/
theorem C3_empty_discovery_succeeds_without_protoc {σ : Type} (os : OS σ)
    (protoDir outDir goOut grpcOut goVersion grpcVersion absProtoDir absOutDir : String)
    (s s1 s2 s3 : σ)
    (h1 : os.abs protoDir s = .ok absProtoDir)
    (h2 : os.abs outDir s = .ok absOutDir)
    (h3 : os.mkdirAll absOutDir 0o755 s = (none, s1))
    (h4 : os.runCmd (goInstall ("google.golang.org/protobuf/cmd/protoc-gen-go@" ++ goVersion)) s1
      = (none, s2))
    (h5 : os.runCmd (goInstall ("google.golang.org/grpc/cmd/protoc-gen-go-grpc@" ++ grpcVersion))
      s2 = (none, s3))
    (h6 : findProtoFiles os absProtoDir s3 = ([], none)) :
    (run os protoDir outDir goOut grpcOut goVersion grpcVersion s).val = none ∧
    (∀ cmd ∈ commandsRun (run os protoDir outDir goOut grpcOut goVersion grpcVersion s).trace,
      cmd.Path ≠ "protoc") ∧
    commandsRun (run os protoDir outDir goOut grpcOut goVersion grpcVersion s).trace =
      [goInstall ("google.golang.org/protobuf/cmd/protoc-gen-go@" ++ goVersion),
        goInstall ("google.golang.org/grpc/cmd/protoc-gen-go-grpc@" ++ grpcVersion)] ∧
    (run os protoDir outDir goOut grpcOut goVersion grpcVersion s).trace.getLast? =
      some (.log ("No .proto files found in " ++ absProtoDir)) ∧
    (run os protoDir outDir goOut grpcOut goVersion grpcVersion s).state = s3 := by
  have hi := installPlugins_both_succeed os goVersion grpcVersion s1 s2 s3 h4 h5
  have hr : run os protoDir outDir goOut grpcOut goVersion grpcVersion s =
      ⟨none,
        [.abs protoDir, .abs outDir, .mkdirAll absOutDir 0o755] ++
          [.log ("Ensuring plugins are installed: protoc-gen-go@" ++ goVersion ++
              ", protoc-gen-go-grpc@" ++ grpcVersion),
            .exec (goInstall ("google.golang.org/protobuf/cmd/protoc-gen-go@" ++ goVersion)),
            .exec (goInstall ("google.golang.org/grpc/cmd/protoc-gen-go-grpc@" ++ grpcVersion))] ++
          [.walk absProtoDir] ++ [.log ("No .proto files found in " ++ absProtoDir)],
        s3⟩ := by
    simp [run, h1, h2, h3, hi, h6]
  rw [hr]
  refine ⟨rfl, ?_, by simp [commandsRun], by simp, rfl⟩
  intro cmd hc
  simp [commandsRun] at hc
  rcases hc with rfl | rfl <;> simp [goInstall]

/-- Claim C3, at a concrete input: an empty proto directory in a world that counts the
commands it runs. -/
theorem C3_empty_discovery_succeeds_without_protoc_witness :
    (run (countingOS emptyTree) "/w" "/o" "." "." "latest" "latest" 0).val = none ∧
    (∀ cmd ∈ commandsRun (run (countingOS emptyTree) "/w" "/o" "." "." "latest" "latest" 0).trace,
      cmd.Path ≠ "protoc") ∧
    (run (countingOS emptyTree) "/w" "/o" "." "." "latest" "latest" 0).state = 2 := by
  have h := C3_empty_discovery_succeeds_without_protoc (countingOS emptyTree)
    "/w" "/o" "." "." "latest" "latest" "/w" "/o" 0 0 1 2 rfl rfl rfl rfl rfl rfl
  exact ⟨h.1, h.2.1, h.2.2.2.2⟩

/-- Claim C5: the first error in the pipeline of run aborts the run.  For each of the
steps (resolution of the proto directory, resolution of the output directory, creation of
the output directory, plugin installation, discovery, generation), when the steps before it
succeed and it fails with an error, run returns a non-nil error wrapping that error and its
trace ends with the failing step: no later step is executed.  In particular, whenever
discovery fails run returns an error and `protoc` is never invoked, and discovery does fail
when the proto directory does not exist (`Lstat` fails on it). -/
theorem C5_first_error_aborts_run {σ : Type} (os : OS σ)
    (protoDir outDir goOut grpcOut goVersion grpcVersion : String) (s : σ) :
    (∀ err, os.abs protoDir s = .error err →
      run os protoDir outDir goOut grpcOut goVersion grpcVersion s =
        ⟨some (.wrapped "failed to resolving proto dir: " err), [.abs protoDir], s⟩) ∧
    (∀ absProtoDir err, os.abs protoDir s = .ok absProtoDir → os.abs outDir s = .error err →
      run os protoDir outDir goOut grpcOut goVersion grpcVersion s =
        ⟨some (.wrapped "failed to resolving out dir: " err),
          [.abs protoDir, .abs outDir], s⟩) ∧
    (∀ absProtoDir absOutDir err s1,
      os.abs protoDir s = .ok absProtoDir → os.abs outDir s = .ok absOutDir →
      os.mkdirAll absOutDir 0o755 s = (some err, s1) →
      run os protoDir outDir goOut grpcOut goVersion grpcVersion s =
        ⟨some (.wrapped "failed to create output directory: " err),
          [.abs protoDir, .abs outDir, .mkdirAll absOutDir 0o755], s1⟩) ∧
    (∀ absProtoDir absOutDir err s1,
      os.abs protoDir s = .ok absProtoDir → os.abs outDir s = .ok absOutDir →
      os.mkdirAll absOutDir 0o755 s = (none, s1) →
      (installPlugins os goVersion grpcVersion s1).val = some err →
      run os protoDir outDir goOut grpcOut goVersion grpcVersion s =
        ⟨some (.wrapped "failed to install plugins: " err),
          [.abs protoDir, .abs outDir, .mkdirAll absOutDir 0o755] ++
            (installPlugins os goVersion grpcVersion s1).trace,
          (installPlugins os goVersion grpcVersion s1).state⟩) ∧
    (∀ absProtoDir absOutDir files err s1,
      os.abs protoDir s = .ok absProtoDir → os.abs outDir s = .ok absOutDir →
      os.mkdirAll absOutDir 0o755 s = (none, s1) →
      (installPlugins os goVersion grpcVersion s1).val = none →
      findProtoFiles os absProtoDir (installPlugins os goVersion grpcVersion s1).state =
        (files, some err) →
      run os protoDir outDir goOut grpcOut goVersion grpcVersion s =
        ⟨some (.wrapped "failed to find proto files: " err),
          [.abs protoDir, .abs outDir, .mkdirAll absOutDir 0o755] ++
            (installPlugins os goVersion grpcVersion s1).trace ++ [.walk absProtoDir],
          (installPlugins os goVersion grpcVersion s1).state⟩ ∧
      ∀ cmd ∈ commandsRun (run os protoDir outDir goOut grpcOut goVersion grpcVersion s).trace,
        cmd.Path ≠ "protoc") ∧
    (∀ absProtoDir absOutDir files err s1,
      os.abs protoDir s = .ok absProtoDir → os.abs outDir s = .ok absOutDir →
      os.mkdirAll absOutDir 0o755 s = (none, s1) →
      (installPlugins os goVersion grpcVersion s1).val = none →
      findProtoFiles os absProtoDir (installPlugins os goVersion grpcVersion s1).state =
        (files, none) →
      files ≠ [] →
      (generateCode os files absProtoDir absOutDir goOut grpcOut
        (installPlugins os goVersion grpcVersion s1).state).val = some err →
      run os protoDir outDir goOut grpcOut goVersion grpcVersion s =
        ⟨some (.wrapped "failed to generate code: " err),
          [.abs protoDir, .abs outDir, .mkdirAll absOutDir 0o755] ++
            (installPlugins os goVersion grpcVersion s1).trace ++ [.walk absProtoDir] ++
            (generateCode os files absProtoDir absOutDir goOut grpcOut
              (installPlugins os goVersion grpcVersion s1).state).trace,
          (generateCode os files absProtoDir absOutDir goOut grpcOut
            (installPlugins os goVersion grpcVersion s1).state).state⟩) ∧
    (∀ (dir : String) (st : σ) (name msg : String), os.lstatTree dir st = .lstatFail name msg →
      findProtoFiles os dir st = ([], some (.sys msg))) := by
  refine ⟨?_, ?_, ?_, ?_, ?_, ?_, ?_⟩
  · intro err h1
    simp [run, h1]
  · intro a err h1 h2
    simp [run, h1, h2]
  · intro a b err s1 h1 h2 h3
    simp [run, h1, h2, h3]
  · intro a b err s1 h1 h2 h3 h4
    simp [run, h1, h2, h3, h4]
  · intro a b files err s1 h1 h2 h3 h4 h5
    have hr : run os protoDir outDir goOut grpcOut goVersion grpcVersion s =
        ⟨some (.wrapped "failed to find proto files: " err),
          [.abs protoDir, .abs outDir, .mkdirAll b 0o755] ++
            (installPlugins os goVersion grpcVersion s1).trace ++ [.walk a],
          (installPlugins os goVersion grpcVersion s1).state⟩ := by
      simp [run, h1, h2, h3, h4, h5]
    refine ⟨hr, ?_⟩
    rw [hr]
    intro cmd hc
    simp only [commandsRun_append] at hc
    simp [commandsRun] at hc
    have hgo := installPlugins_runs_go os goVersion grpcVersion s1 cmd hc
    rw [hgo]
    decide
  · intro a b files err s1 h1 h2 h3 h4 h5 hne h6
    have hlen : files.length ≠ 0 := by
      simpa using hne
    simp [run, h1, h2, h3, h4, h5, hlen, h6]
  · intro dir st name msg h
    exact findProtoFiles_lstatFail os dir st name msg h

/-- Claim C5, at concrete inputs: a relative proto directory when the current directory
cannot be determined, and a proto directory that does not exist. -/
theorem C5_first_error_aborts_run_witness :
    run (noCwdOS oneFileTree) "protos" "/o" "." "." "latest" "latest" () =
      ⟨some (.wrapped "failed to resolving proto dir: "
        (.sys "getwd: no such file or directory")), [.abs "protos"], ()⟩ ∧
    (run (stillOS missingTree) "/missing" "/o" "." "." "latest" "latest" ()).val =
      some (.wrapped "failed to find proto files: "
        (.sys "lstat /missing: no such file or directory")) ∧
    (∀ cmd ∈ commandsRun
        (run (stillOS missingTree) "/missing" "/o" "." "." "latest" "latest" ()).trace,
      cmd.Path ≠ "protoc") := by
  have h1 := (C5_first_error_aborts_run (noCwdOS oneFileTree) "protos" "/o" "." "."
    "latest" "latest" ()).1 (.sys "getwd: no such file or directory") rfl
  have h5 := (C5_first_error_aborts_run (stillOS missingTree) "/missing" "/o" "." "."
    "latest" "latest" ()).2.2.2.2.1 "/missing" "/o" []
    (.sys "lstat /missing: no such file or directory") () rfl rfl rfl rfl rfl
  exact ⟨h1, by rw [h5.1], h5.2⟩

/-! ## `findProtoFiles` -/

mutual
/-- On a tree walked without error, `walk` with the callback of `findProtoFiles` returns
nil and appends the paths of the entries that are not directories and whose name ends in
".proto". -/
theorem walk_errFree (join : String → String → String) (path : String) (n : Node)
    (acc : List String) (h : errFree n = true) :
    walk join path n findProtoFilesFunc acc = (none, acc ++ nonDirProtoPaths join path n) := by
  match n with
  | .leaf name mode =>
    cases mode <;> by_cases hs : HasSuffix name ".proto" = true <;>
      simp [walk, findProtoFilesFunc, nonDirProtoPaths, entries, FileInfo.IsDir,
        LeafMode.toFileMode, hs]
  | .dir name children =>
    have ih := walkNames_errFree join path children acc (by simpa [errFree] using h)
    simp [walk, findProtoFilesFunc, nonDirProtoPaths, entries, FileInfo.IsDir, ih]
  | .dirUnreadable name err => simp [errFree] at h
  | .lstatFail name err => simp [errFree] at h
/-- On a list of trees walked without error, the loop of `walk` with the callback of
`findProtoFiles` returns nil and appends the matching paths of every tree. -/
theorem walkNames_errFree (join : String → String → String) (path : String)
    (names : List Node) (acc : List String) (h : errFreeNames names = true) :
    walkNames join path names findProtoFilesFunc acc =
      (none, acc ++ ((entriesOfNames join path names).filter
        (fun e => !e.2.IsDir && HasSuffix e.2.Name ".proto")).map Prod.fst) := by
  match names with
  | [] => simp [walkNames, entriesOfNames]
  | c :: rest =>
    have hc : errFree c = true ∧ errFreeNames rest = true := by
      simpa [errFreeNames] using h
    have ih1 := walk_errFree join (join path c.name) c acc hc.1
    have ih2 := walkNames_errFree join path rest
      (acc ++ nonDirProtoPaths join (join path c.name) c) hc.2
    cases c with
    | lstatFail name err => simp [errFree] at hc
    | leaf name mode =>
      simp only [walkNames, ih1, ih2]
      simp [entriesOfNames, nonDirProtoPaths]
    | dir name children =>
      simp only [walkNames, ih1, ih2]
      simp [entriesOfNames, nonDirProtoPaths]
    | dirUnreadable name err => simp [errFree] at hc
end

/-- Claim C2, as amended: on a directory tree walked without error, findProtoFiles returns
no error and exactly the paths of the entries that are not directories and whose name ends
in ".proto" (regular files, and also symbolic links and other special files): directories
are never returned, even when their name ends in ".proto", but are traversed, non-matching
entries are excluded, and matching entries at any nesting depth are included; in
particular every regular file whose name ends in ".proto" is returned. -/
theorem C2_findProtoFiles_returns_nonDir_matches {σ : Type} (os : OS σ) (dir : String) (s : σ)
    (h : errFree (os.lstatTree dir s) = true) :
    (findProtoFiles os dir s).2 = none ∧
    (∀ p, p ∈ (findProtoFiles os dir s).1 ↔
      ∃ info, (p, info) ∈ entries os.join dir (os.lstatTree dir s) ∧
        info.IsDir = false ∧ HasSuffix info.Name ".proto" = true) ∧
    (findProtoFiles os dir s).1 = nonDirProtoPaths os.join dir (os.lstatTree dir s) ∧
    (∀ p info, (p, info) ∈ entries os.join dir (os.lstatTree dir s) →
      info.IsRegular = true → HasSuffix info.Name ".proto" = true →
      p ∈ (findProtoFiles os dir s).1) := by
  have hw := walk_errFree os.join dir (os.lstatTree dir s) [] h
  have hf : findProtoFiles os dir s = (nonDirProtoPaths os.join dir (os.lstatTree dir s), none) := by
    unfold findProtoFiles Walk
    cases ht : os.lstatTree dir s with
    | lstatFail name err => rw [ht] at h; simp [errFree] at h
    | leaf name mode => rw [ht] at hw; simp [hw]
    | dir name children => rw [ht] at hw; simp [hw]
    | dirUnreadable name err => rw [ht] at h; simp [errFree] at h
  have hmem : ∀ p, p ∈ nonDirProtoPaths os.join dir (os.lstatTree dir s) ↔
      ∃ info, (p, info) ∈ entries os.join dir (os.lstatTree dir s) ∧
        info.IsDir = false ∧ HasSuffix info.Name ".proto" = true := by
    intro p
    simp [nonDirProtoPaths]
  rw [hf]
  refine ⟨rfl, hmem, rfl, ?_⟩
  intro p info hin hreg hsuf
  refine (hmem p).2 ⟨info, hin, ?_, hsuf⟩
  cases info with
  | mk name mode => cases mode <;> simp_all [FileInfo.IsRegular, FileInfo.IsDir]

/-- Claim C2, at the tree of the scenario: for `a/x.proto`, `a/b/y.proto` and `c/readme.md`
the discoverer returns `a/b/y.proto` and `a/x.proto`, and not `c/readme.md`. -/
theorem C2_findProtoFiles_returns_nonDir_matches_witness :
    errFree scenarioTree = true ∧
    findProtoFiles (stillOS scenarioTree) "." () = (["a/b/y.proto", "a/x.proto"], none) ∧
    (∀ p, p ∈ (findProtoFiles (stillOS scenarioTree) "." ()).1 ↔
      p = "a/x.proto" ∨ p = "a/b/y.proto") := by
  have h := C2_findProtoFiles_returns_nonDir_matches (stillOS scenarioTree) "." () (by decide)
  have hv : nonDirProtoPaths unixJoin "." scenarioTree = ["a/b/y.proto", "a/x.proto"] := by
    decide
  have hf : findProtoFiles (stillOS scenarioTree) "." () = (["a/b/y.proto", "a/x.proto"], none) :=
    Prod.ext (h.2.2.1.trans hv) h.1
  refine ⟨by decide, hf, ?_⟩
  intro p
  rw [hf]
  simp [or_comm]

/-- Claim C2, as stated, fails: in the directory `/w` that holds a symbolic link named
`l.proto`, walked without error, findProtoFiles returns `/w/l.proto`, which is the path of
no regular file of the tree. -/
theorem C2_regular_files_only_counterexample :
    errFree linkTree = true ∧
    findProtoFiles (stillOS linkTree) "/w" () = (["/w/d.proto/z.proto", "/w/l.proto"], none) ∧
    "/w/l.proto" ∈ (findProtoFiles (stillOS linkTree) "/w" ()).1 ∧
    (∀ e ∈ entries unixJoin "/w" linkTree, e.1 = "/w/l.proto" → e.2.IsRegular = false) ∧
    "/w/l.proto" ∉ regularProtoPaths unixJoin "/w" linkTree ∧
    (findProtoFiles (stillOS linkTree) "/w" ()).1 ≠ regularProtoPaths unixJoin "/w" linkTree := by
  decide

/-- Claim C7, at concrete inputs: GOBIN set; GOBIN unset and GOPATH set; both unset with a
home directory; both unset without one. -/
theorem C7_getGoBin_priority_witness :
    getGoBin (envOS "/opt/gobin" "/gp" (.ok "/home/u")) () = .ok "/opt/gobin" ∧
    getGoBin (envOS "" "/gp" (.ok "/home/u")) () = .ok "/gp/bin" ∧
    getGoBin (envOS "" "" (.ok "/home/u")) () = .ok "/home/u/go/bin" ∧
    getGoBin (envOS "" "" (.error (.sys "$HOME is not defined"))) () =
      .error (.sys "$HOME is not defined") :=
  ⟨(C7_getGoBin_priority (envOS "/opt/gobin" "/gp" (.ok "/home/u")) ()).1 (by decide),
    (C7_getGoBin_priority (envOS "" "/gp" (.ok "/home/u")) ()).2.1 (by decide) (by decide),
    (C7_getGoBin_priority (envOS "" "" (.ok "/home/u")) ()).2.2.1 (by decide) (by decide)
      "/home/u" rfl,
    ((C7_getGoBin_priority (envOS "" "" (.error (.sys "$HOME is not defined"))) ()).2.2.2
      (.sys "$HOME is not defined")).2 ⟨by decide, by decide, rfl⟩⟩

/-- Claim C8, at concrete inputs: with the home directory `/home/u` the compiler runs with
PATH `/home/u/go/bin:/usr/bin` and the HOME of the parent; without a home directory it runs
with the environment of the parent. -/
theorem C8_compiler_environment_witness :
    (∃ cmd : Cmd,
      commandsRun (generateCode (stillOS oneFileTree) ["/w/a.proto"] "/w" "/o" "." "."
        ()).trace = [cmd] ∧
      envLookup (cmd.effectiveEnv (stillOS oneFileTree) ()) "PATH" =
        some "/home/u/go/bin:/usr/bin" ∧
      envLookup (cmd.effectiveEnv (stillOS oneFileTree) ()) "HOME" = some "/home/u") ∧
    (∃ cmd : Cmd,
      commandsRun (generateCode (envOS "" "" (.error (.sys "$HOME is not defined")))
        ["/w/a.proto"] "/w" "/o" "." "." ()).trace = [cmd] ∧
      cmd.Path = "protoc" ∧ cmd.Env = none) := by
  constructor
  · obtain ⟨cmd, h1, _, _, h4, h5⟩ :=
      (C8_compiler_environment (stillOS oneFileTree) ["/w/a.proto"] "/w" "/o" "." "." ()).1
        "/home/u/go/bin" rfl
    refine ⟨cmd, h1, ?_, ?_⟩
    · rw [h4]; decide
    · rw [h5 "HOME" (by decide)]; decide
  · obtain ⟨cmd, h1, h2, h3, _⟩ :=
      (C8_compiler_environment (envOS "" "" (.error (.sys "$HOME is not defined")))
        ["/w/a.proto"] "/w" "/o" "." "." ()).2 (.sys "$HOME is not defined") rfl
    exact ⟨cmd, h1, h2, h3⟩

end GoRpcGen
